import Mathlib

/-!
Shallow embedding of the PETSc vector-scatter interface layer
(`src/vec/vscat/interface/vscatfce.c`).

The embedding follows the source file function by function:
`VecScatterBegin`, `VecScatterEnd`, `VecScatterDestroy`, `VecScatterRemap`
and `VecScatterInitializeForGPU` are translated into pure Lean functions on
an explicit scatter-context state.  In-place mutation in the C code is
rendered as state passing: every operation returns the final context
together with an optional error, so a `SETERRQ` that fires after some
mutation has already happened leaves that mutation visible in the returned
state, exactly as in the C code.

The build is modelled in the `PETSC_USE_DEBUG` configuration, in which the
local-size validation inside `VecScatterBegin` is compiled in (the spec
describes that configuration).  `PetscLogEvent*` calls are pure
bookkeeping that cannot fail and have no observable effect on the scatter
state; they are omitted.

The backend `begin`/`end` operations reached through the context's
dispatch table live outside this file; they are modelled as opaque
functions acting on the backend payload of the context (they never touch
the interface-level fields `inuse`, `beginandendtogether`, `to_n`,
`from_n`, `refct`, which only the interface layer writes).
-/

/-- Scatter direction: the `mode` argument.  The C value is a bitmask and
the interface layer only tests `mode & SCATTER_REVERSE`; the two modes the
spec talks about are modelled. -/
inductive ScatterMode where
  | forward
  | reverse
deriving DecidableEq, Repr

/-- Tests `mode & SCATTER_REVERSE`. -/
def scatterReverse : ScatterMode → Bool
  | .forward => false
  | .reverse => true

/-- Combine mode: `INSERT_VALUES` or `ADD_VALUES`.  The interface layer
passes it through to the backend unchanged. -/
inductive InsertMode where
  | insertValues
  | addValues
deriving DecidableEq, Repr

/-- State of a vector's device mirror (`x->valid_GPU_array`);
`VecScatterInitializeForGPU` only compares it against
`PETSC_OFFLOAD_UNALLOCATED`. -/
inductive PetscOffloadMask where
  | unallocated
  | cpu
  | gpu
  | both
deriving DecidableEq, Repr

/-- The slice of a PETSc vector the scatter interface layer reads: its
local length (`VecGetLocalSize`) and its device-offload state. -/
structure Vec where
  localSize : Int
  validGPUArray : PetscOffloadMask
deriving DecidableEq, Repr

/-- Which declared dimension of the scatter context a size-mismatch error
message reports (`ctx->to_n` or `ctx->from_n`). -/
inductive SizeDim where
  | toSize
  | fromSize
deriving DecidableEq, Repr

/-- Error values raised by the interface layer.  `wrongState` is
`PETSC_ERR_ARG_WRONGSTATE`; `sizeMismatch` is `PETSC_ERR_ARG_SIZ` as raised
by the size validation in `VecScatterBegin` (it carries the offending
vector size and the declared context size, identifying the bad dimension);
`sizeArg` is `PETSC_ERR_ARG_SIZ` as raised by `VecScatterRemap`;
`notSupported` is `PETSC_ERR_SUP`; `backendFail` is an error code
propagated by `CHKERRQ` from a backend operation. -/
inductive PetscErr where
  | wrongState
  | sizeMismatch (dim : SizeDim) (vecSize ctxSize : Int)
  | sizeArg
  | notSupported
  | backendFail (code : Nat)
deriving DecidableEq, Repr

/-- The `VecScatter_MPI_General` backend payload, with the fields the
exhibited file reads: `n` peers, the `starts` offset array (length `n+1`
in well-formed data, with `starts[n]` the total number of message-block
indices), the flat `indices` buffer, the purely local part
(`local.n` / `local.vslots`), the block size `bs`, and the derived memcpy
plan.  The plan itself is built outside the exhibited file; the embedding
records the index list it was derived from (see `memcpyPlanCreatePtoP`). -/
structure VecScatterMPIGeneral where
  n : Nat
  starts : List Int
  indices : List Int
  localN : Nat
  localVslots : List Int
  bs : Nat
  memcpyPlan : Option (List Int)
deriving DecidableEq, Repr

/-- The `VecScatter_Seq_General` backend payload: `n` slots, the `vslots`
index list, and the derived memcpy plan. -/
structure VecScatterSeqGeneral where
  n : Nat
  vslots : List Int
  memcpyPlan : Option (List Int)
deriving DecidableEq, Repr

/-- The `VecScatter_Seq_Stride` backend payload: count `n`, start offset
`first` and `step`. -/
structure VecScatterSeqStride where
  n : Nat
  first : Int
  step : Int
deriving DecidableEq, Repr

/-- A sequential-side backend: `VEC_SCATTER_SEQ_GENERAL` or
`VEC_SCATTER_SEQ_STRIDE`. -/
inductive SeqBackend where
  | general (g : VecScatterSeqGeneral)
  | stride (s : VecScatterSeqStride)
deriving DecidableEq, Repr

/-- The `todata`/`fromdata` pair of a context.  The C code stores two
untyped pointers and branches on the leading `format` tag; the spec's data
model states that the two sides are always format-compatible pairs
(both distributed-general, or both sequential formats), which the closed
pairing here encodes.  The `VecScatter_MPI_ToAll` payload is irrelevant to
the exhibited interface code (every path either rejects it or, in
`VecScatterInitializeForGPU`, would reinterpret it unsoundly — see there),
so it carries no fields. -/
inductive ScatPair where
  | mpiToAll
  | mpiGeneral (todata fromdata : VecScatterMPIGeneral)
  | seqPair (todata fromdata : SeqBackend)
deriving DecidableEq, Repr

/-- Modelled from the spec: the device layer
(`VecScatterCUDAIndicesCreate_PtoP`, outside the exhibited file) turns the
two expanded, deduplicated index buffers into an opaque transfer handle
cached on the context (`ctx->spptr`); the embedding records the two
buffers the handle was created from. -/
structure PetscCUDAIndices where
  sendIndices : List Int
  recvIndices : List Int
deriving DecidableEq, Repr

/-- The scatter context (`struct _p_VecScatter` plus its `PetscObject`
header): the in-use flag, the merge flag `beginandendtogether`, the two
declared local sizes (`-1` is the "unknown" sentinel), the reference
count of the object header, the backend payload pair, and the cached
device-index handle `spptr`. -/
structure VecScatter where
  inuse : Bool
  beginandendtogether : Bool
  to_n : Int
  from_n : Int
  refct : Nat
  data : ScatPair
  spptr : Option PetscCUDAIndices
deriving DecidableEq, Repr

/-- The context's dispatch table (`ctx->ops`), restricted to the entries
the modelled interface functions call: the mandatory begin-phase and the
optional end-phase (`ctx->ops->end` may be null).  Backend operations act
on the backend payload and the two vectors and may fail with a propagated
error code; they do not write the interface-level fields of the context,
which only the interface layer itself mutates. -/
structure ScatterOps where
  beginOp : ScatPair → Vec → Vec → InsertMode → ScatterMode → Except Nat ScatPair
  endOp : Option (ScatPair → Vec → Vec → InsertMode → ScatterMode → Except Nat ScatPair)

/-- The `PETSC_USE_DEBUG` size validation of `VecScatterBegin` (lines
88–106): skipped unless both declared sizes are known (`>= 0`); under
`SCATTER_REVERSE` the vector `y` must match `ctx->from_n` and `x` must
match `ctx->to_n`, otherwise `y` must match `ctx->to_n` and `x` must match
`ctx->from_n`; the first failing comparison raises `PETSC_ERR_ARG_SIZ`
identifying the offending dimension. -/
def sizeCheckDebug (ctx : VecScatter) (x y : Vec) (mode : ScatterMode) : Option PetscErr :=
  if ctx.from_n ≥ 0 ∧ ctx.to_n ≥ 0 then
    let from_n := x.localSize
    let to_n := y.localSize
    if scatterReverse mode then
      if to_n ≠ ctx.from_n then some (.sizeMismatch .fromSize to_n ctx.from_n)
      else if from_n ≠ ctx.to_n then some (.sizeMismatch .toSize from_n ctx.to_n)
      else none
    else
      if to_n ≠ ctx.to_n then some (.sizeMismatch .toSize to_n ctx.to_n)
      else if from_n ≠ ctx.from_n then some (.sizeMismatch .fromSize from_n ctx.from_n)
      else none
  else none

/-- `VecScatterBegin` (lines 76–117): rejects an in-use context with
`PETSC_ERR_ARG_WRONGSTATE` before any mutation; runs the debug size
validation; marks the context in-use; invokes the backend begin-phase;
if the merge flag is set and the backend has an end-phase, clears in-use
and invokes the end-phase before returning. -/
def VecScatterBegin (ops : ScatterOps) (ctx : VecScatter) (x y : Vec)
    (addv : InsertMode) (mode : ScatterMode) : VecScatter × Option PetscErr :=
  if ctx.inuse then (ctx, some .wrongState)
  else
    match sizeCheckDebug ctx x y mode with
    | some e => (ctx, some e)
    | none =>
      let c1 : VecScatter := { ctx with inuse := true }
      match ops.beginOp c1.data x y addv mode with
      | .error code => (c1, some (.backendFail code))
      | .ok d =>
        let c2 : VecScatter := { c1 with data := d }
        match ops.endOp with
        | some endo =>
          if c2.beginandendtogether then
            let c3 : VecScatter := { c2 with inuse := false }
            match endo c3.data x y addv mode with
            | .error code => (c3, some (.backendFail code))
            | .ok d2 => ({ c3 with data := d2 }, none)
          else (c2, none)
        | none => (c2, none)

/-- `VecScatterEnd` (lines 143–159): unconditionally clears the in-use
flag; returns immediately if the backend has no end-phase; invokes the
end-phase only when the merge flag is not set. -/
def VecScatterEnd (ops : ScatterOps) (ctx : VecScatter) (x y : Vec)
    (addv : InsertMode) (mode : ScatterMode) : VecScatter × Option PetscErr :=
  let c1 : VecScatter := { ctx with inuse := false }
  match ops.endOp with
  | none => (c1, none)
  | some endo =>
    if ¬ c1.beginandendtogether then
      match endo c1.data x y addv mode with
      | .error code => (c1, some (.backendFail code))
      | .ok d => ({ c1 with data := d }, none)
    else (c1, none)

/-- Outcome of `VecScatterDestroy`: the pointer held null (`!*ctx`), the
context survives with a decremented reference count (`--refct > 0`, the
caller's pointer is nulled but no state is freed), or the count reached
zero and the backend state, the memcpy plans it owns, the device mirror
(`VecScatterCUDAIndicesDestroy` on `spptr`) and the header were all
released. -/
inductive DestroyResult where
  | nullInput
  | alive (c : VecScatter)
  | freed
deriving DecidableEq, Repr

/-- `VecScatterDestroy` (lines 174–192): a null context is a successful
no-op; a context that is in-use with reference count exactly 1 raises
`PETSC_ERR_ARG_WRONGSTATE` before any mutation; otherwise the count is
decremented, and only when it reaches zero is anything freed (backend
state via `ops->destroy`, the device mirror, the object header), an
outcome collapsed into `DestroyResult.freed`. -/
def VecScatterDestroy (ctx : Option VecScatter) : Except PetscErr DestroyResult :=
  match ctx with
  | none => .ok .nullInput
  | some c =>
    if c.inuse ∧ c.refct = 1 then .error .wrongState
    else if c.refct - 1 > 0 then .ok (.alive { c with refct := c.refct - 1 })
    else .ok .freed

/-- Rewrites the first `k` entries of a list through `f`, leaving the rest
unchanged: the shape of the C loops `for (i=0; i<k; i++) a[i] = f(a[i])`
over a flat buffer (in well-formed backend data `k` equals the buffer
length, but the embedding does not assume it). -/
def mapFirst (f : Int → Int) : Nat → List Int → List Int
  | _, [] => []
  | 0, l => l
  | k+1, x :: xs => f x :: mapFirst f k xs

/-- The identity check of the local-stride remap branch: the C loop
`for (i=0; i<n; i++) if (tomap[i] != i) SETERRQ(...)` succeeds exactly
when this returns `true`. -/
def identityUpTo (f : Int → Int) (n : Nat) : Bool :=
  (List.range n).all fun i => f (i : Int) == (i : Int)

/-- Modelled from the spec: `VecScatterMemcpyPlanCreate_PtoP` (outside the
exhibited file) rebuilds the derived memcpy plans of both sides of a
distributed-general pair from their current index lists; the embedding
records, for each side, the index list its plan was derived from. -/
def memcpyPlanCreatePtoP (todata fromdata : VecScatterMPIGeneral) :
    VecScatterMPIGeneral × VecScatterMPIGeneral :=
  ({ todata with memcpyPlan := some todata.indices },
   { fromdata with memcpyPlan := some fromdata.indices })

/-- Modelled from the spec: `VecScatterMemcpyPlanCreate_Index` (outside
the exhibited file) builds a memcpy plan from an index list; the embedding
records the index list. -/
def memcpyPlanCreateIndex (vslots : List Int) : Option (List Int) :=
  some vslots

/-- The `tomap` phase of `VecScatterRemap` (lines 321–360).  Dispatch
follows the C code: a `VEC_SCATTER_MPI_TOALL` to-side is rejected with
`PETSC_ERR_ARG_SIZ`; a `VEC_SCATTER_MPI_GENERAL` to-side has its
message-block indices (`to->indices`, the first `to->starts[to->n]`
entries) and its local slots (`to->local.vslots`, the first `to->local.n`
entries) translated through `tomap`, after which the pairwise memcpy plan
is destroyed and rebuilt; a sequential pair whose `fromdata` is
`VEC_SCATTER_SEQ_GENERAL` has `sgfrom->vslots` translated through `tomap`
(the sequential representation stores the indices data is taken from — the
remap-sense "to" indices — in `fromdata`, as the C comment on
`VecScatterRemap` explains), then rebuilds the plan when the paired
to-side is a step-1 stride or another sequential-general; a sequential
pair whose `fromdata` is `VEC_SCATTER_SEQ_STRIDE` is accepted as a no-op
only when the stride is the identity (`step == 1 && first == 0`) and
`tomap` is the identity on every position below the count, and otherwise
rejected with `PETSC_ERR_ARG_SIZ`. -/
def remapToMapPhase (scat : VecScatter) (tomap : Option (Int → Int)) :
    VecScatter × Option PetscErr :=
  match tomap with
  | none => (scat, none)
  | some tm =>
    match scat.data with
    | .mpiToAll => (scat, some .sizeArg)
    | .mpiGeneral todata fromdata =>
      let ns := (todata.starts.getD todata.n 0).toNat
      let t1 : VecScatterMPIGeneral :=
        { todata with
          indices := mapFirst tm ns todata.indices,
          localVslots := mapFirst tm todata.localN todata.localVslots }
      let (t2, f2) := memcpyPlanCreatePtoP t1 fromdata
      ({ scat with data := .mpiGeneral t2 f2 }, none)
    | .seqPair todata (.general sgfrom) =>
      let g1 : VecScatterSeqGeneral :=
        { sgfrom with vslots := mapFirst tm sgfrom.n sgfrom.vslots }
      match todata with
      | .stride ssto =>
        if ssto.step = 1 then
          let g2 : VecScatterSeqGeneral :=
            { g1 with memcpyPlan := memcpyPlanCreateIndex g1.vslots }
          ({ scat with data := .seqPair todata (.general g2) }, none)
        else
          ({ scat with data := .seqPair todata (.general g1) }, none)
      | .general sgto =>
        let t2 : VecScatterSeqGeneral :=
          { sgto with memcpyPlan := memcpyPlanCreateIndex sgto.vslots }
        let g2 : VecScatterSeqGeneral :=
          { g1 with memcpyPlan := memcpyPlanCreateIndex g1.vslots }
        ({ scat with data := .seqPair (.general t2) (.general g2) }, none)
    | .seqPair _ (.stride ssto) =>
      if ssto.step = 1 ∧ ssto.first = 0 then
        if identityUpTo tm ssto.n then (scat, none)
        else (scat, some .sizeArg)
      else (scat, some .sizeArg)

/-- `VecScatterRemap` (lines 302–371): runs the `tomap` phase; then, if a
non-null `frommap` was given, raises `PETSC_ERR_SUP` — after the `tomap`
mutation has already been applied; finally, on success, marks both
declared vector lengths unknown (`-1`). -/
def VecScatterRemap (scat : VecScatter) (tomap frommap : Option (Int → Int)) :
    VecScatter × Option PetscErr :=
  match remapToMapPhase scat tomap with
  | (s, some e) => (s, some e)
  | (s, none) =>
    if frommap.isSome then (s, some .notSupported)
    else ({ s with from_n := -1, to_n := -1 }, none)

/-- Inserts an integer into a sorted duplicate-free list, keeping it
sorted and duplicate-free. -/
def insSortedNoDup (x : Int) : List Int → List Int
  | [] => [x]
  | y :: ys =>
    if x < y then x :: y :: ys
    else if x = y then y :: ys
    else y :: insSortedNoDup x ys

/-- Modelled from the spec: `PetscSortRemoveDupsInt` (outside the
exhibited file) sorts an integer buffer ascending and removes duplicate
values, shrinking the count ("deduplicate each index set"). -/
def sortRemoveDups (l : List Int) : List Int :=
  l.foldr insSortedNoDup []

/-- Block expansion of `VecScatterInitializeForGPU` (lines 483–491): each
index `v` of the deduplicated list is expanded into the `bs` consecutive
component indices `v, v+1, …, v+bs-1`. -/
def blockExpand (bs : Nat) (l : List Int) : List Int :=
  l.flatMap fun v => (List.range bs).map fun (k : Nat) => v + (k : Int)

/-- `VecScatterInitializeForGPU` (lines 438–501): returns immediately when
either side is a sequential format; under `SCATTER_REVERSE` the roles of
`todata` and `fromdata` are swapped; when the source vector has a device
allocation and there is at least one send or receive peer, and no device
index handle is cached yet, it copies the first `starts[n]` message-block
indices of each side, sorts and deduplicates them, block-expands them by
each side's block size, and caches the resulting send/receive buffers as
the device-index handle.  Local slots (`to->local.vslots`) are never read.
The `VEC_SCATTER_MPI_TOALL` case would reinterpret the to-all payload as
`VecScatter_MPI_General` in C (no field of the model is meaningful there);
it is left as an unreachable unchanged-return in the embedding and no
claim exercises it. -/
def VecScatterInitializeForGPU (inctx : VecScatter) (x : Vec) (mode : ScatterMode) :
    VecScatter × Option PetscErr :=
  match inctx.data with
  | .seqPair _ _ => (inctx, none)
  | .mpiToAll => (inctx, none)
  | .mpiGeneral t f =>
    let td := if scatterReverse mode then f else t
    let fd := if scatterReverse mode then t else f
    let bs := td.bs
    let nrecvs := fd.n
    let nsends := td.n
    let ns := (td.starts.getD nsends 0).toNat
    let nr := (fd.starts.getD nrecvs 0).toNat
    if x.validGPUArray ≠ .unallocated ∧ (0 < nsends ∨ 0 < nrecvs) then
      match inctx.spptr with
      | some _ => (inctx, none)
      | none =>
        let tindicesSends := sortRemoveDups (td.indices.take ns)
        let tindicesRecvs := sortRemoveDups (fd.indices.take nr)
        let sindicesSends := blockExpand bs tindicesSends
        let sindicesRecvs := blockExpand fd.bs tindicesRecvs
        ({ inctx with spptr := some ⟨sindicesSends, sindicesRecvs⟩ }, none)
    else (inctx, none)

/-- A backend begin/end operation that succeeds and leaves the payload
unchanged, for concrete instantiations. -/
def idScatterOp : ScatPair → Vec → Vec → InsertMode → ScatterMode → Except Nat ScatPair :=
  fun d _ _ _ _ => .ok d

/-- A dispatch table with both phases present. -/
def sampleOps : ScatterOps := ⟨idScatterOp, some idScatterOp⟩

/-- A dispatch table whose backend has no end-phase. -/
def sampleOpsNoEnd : ScatterOps := ⟨idScatterOp, none⟩

/-- A sequential backend pair: a general from-side over an identity
stride to-side. -/
def samplePair : ScatPair :=
  .seqPair (.stride ⟨3, 0, 1⟩) (.general ⟨2, [0, 1], none⟩)

/-- A context that is mid-transfer. -/
def ctxInUse : VecScatter := ⟨true, false, 4, 3, 1, samplePair, none⟩

/-- A not-in-use context with declared sizes 3 (from) and 4 (to). -/
def ctxSized : VecScatter := ⟨false, false, 4, 3, 1, samplePair, none⟩

/-- A not-in-use context with reference count 2. -/
def ctxRef2 : VecScatter := ⟨false, false, 4, 3, 2, samplePair, none⟩

/-- A not-in-use context with reference count 1. -/
def ctxRef1 : VecScatter := ⟨false, false, 4, 3, 1, samplePair, none⟩

/-- A vector of local size 3. -/
def vecA : Vec := ⟨3, .cpu⟩

/-- A vector of local size 4. -/
def vecB : Vec := ⟨4, .cpu⟩

/-- A vector of local size 5 (wrong for `ctxSized`). -/
def vecBad : Vec := ⟨5, .cpu⟩

/-- C1: a `VecScatterBegin` on a context whose in-use flag is set fails
with the wrong-state error `PETSC_ERR_ARG_WRONGSTATE`, and the returned
context is the input context unchanged — in particular its in-use flag is
still true. -/
theorem vecScatterBegin_inuse_fails (ops : ScatterOps) (ctx : VecScatter) (x y : Vec)
    (addv : InsertMode) (mode : ScatterMode) (h : ctx.inuse = true) :
    VecScatterBegin ops ctx x y addv mode = (ctx, some .wrongState) := by
  simp [VecScatterBegin, h]

/-- Witness for C1 at a concrete in-use context. -/
theorem vecScatterBegin_inuse_fails_witness :
    VecScatterBegin sampleOps ctxInUse vecA vecB .insertValues .forward
      = (ctxInUse, some .wrongState) :=
  vecScatterBegin_inuse_fails sampleOps ctxInUse vecA vecB .insertValues .forward rfl

/-- C7: `VecScatterDestroy` fails with the wrong-state error when the
context is in-use and its reference count is exactly 1; with count at
least 2 it only decrements the count, freeing nothing (the surviving
context is the input with `refct - 1`); with count 1 and the context not
in-use, the count reaches zero and backend state, memcpy plans and the
device mirror are released. -/
theorem vecScatterDestroy_refcount (c : VecScatter) :
    (c.inuse = true → c.refct = 1 → VecScatterDestroy (some c) = .error .wrongState)
    ∧ (2 ≤ c.refct →
        VecScatterDestroy (some c) = .ok (.alive { c with refct := c.refct - 1 }))
    ∧ (c.inuse = false → c.refct = 1 → VecScatterDestroy (some c) = .ok .freed) := by
  refine ⟨fun h1 h2 => ?_, fun h => ?_, fun h1 h2 => ?_⟩
  · simp [VecScatterDestroy, h1, h2]
  · have h1 : ¬(c.inuse = true ∧ c.refct = 1) := by
      rintro ⟨-, hh⟩; omega
    have h2 : c.refct - 1 > 0 := by omega
    simp only [VecScatterDestroy]
    rw [if_neg (by simpa using h1), if_pos h2]
  · have h3 : ¬(c.inuse = true ∧ c.refct = 1) := by
      rintro ⟨hh, -⟩; simp [h1] at hh
    have h4 : ¬(c.refct - 1 > 0) := by omega
    simp only [VecScatterDestroy]
    rw [if_neg (by simpa using h3), if_neg h4]

/-- Witness for C7: destroying at reference count 2 yields the same
context with count 1 and frees nothing; destroying again frees it. -/
theorem vecScatterDestroy_refcount_witness :
    VecScatterDestroy (some ctxRef2) = .ok (.alive ctxRef1)
    ∧ VecScatterDestroy (some ctxRef1) = .ok .freed :=
  ⟨(vecScatterDestroy_refcount ctxRef2).2.1 (by decide),
   (vecScatterDestroy_refcount ctxRef1).2.2 rfl rfl⟩

/-- C9: `VecScatterEnd` always leaves the in-use flag cleared, never
raises a state error (its only possible error is one propagated from the
backend end-phase), and when the backend has no end-phase it returns
success immediately after clearing the flag — so an `End` without a
preceding `Begin`, or two `End`s in a row, succeeds on such backends. -/
theorem vecScatterEnd_clears_inuse (ops : ScatterOps) (ctx : VecScatter) (x y : Vec)
    (addv : InsertMode) (mode : ScatterMode) :
    (VecScatterEnd ops ctx x y addv mode).1.inuse = false
    ∧ ((VecScatterEnd ops ctx x y addv mode).2 = none
        ∨ ∃ code, (VecScatterEnd ops ctx x y addv mode).2 = some (.backendFail code))
    ∧ (ops.endOp = none →
        VecScatterEnd ops ctx x y addv mode = ({ ctx with inuse := false }, none)) := by
  unfold VecScatterEnd
  cases h : ops.endOp with
  | none => simp
  | some endo =>
    simp only
    split
    · cases he : endo { ctx with inuse := false }.data x y addv mode <;> simp
    · simp

/-- Witness for C9 at a concrete backend with no end-phase and a context
left in-use by an unmatched `Begin`. -/
theorem vecScatterEnd_clears_inuse_witness :
    (VecScatterEnd sampleOpsNoEnd ctxInUse vecA vecB .insertValues .forward).1.inuse = false
    ∧ ((VecScatterEnd sampleOpsNoEnd ctxInUse vecA vecB .insertValues .forward).2 = none
        ∨ ∃ code, (VecScatterEnd sampleOpsNoEnd ctxInUse vecA vecB .insertValues .forward).2
            = some (.backendFail code))
    ∧ (sampleOpsNoEnd.endOp = none →
        VecScatterEnd sampleOpsNoEnd ctxInUse vecA vecB .insertValues .forward
          = ({ ctxInUse with inuse := false }, none)) :=
  vecScatterEnd_clears_inuse sampleOpsNoEnd ctxInUse vecA vecB .insertValues .forward

/-- The first component returned by `VecScatterEnd` always has the in-use
flag cleared. -/
theorem vecScatterEnd_fst_inuse (ops : ScatterOps) (ctx : VecScatter) (x y : Vec)
    (addv : InsertMode) (mode : ScatterMode) :
    (VecScatterEnd ops ctx x y addv mode).1.inuse = false := by
  unfold VecScatterEnd
  cases h : ops.endOp with
  | none => simp
  | some endo =>
    simp only
    split
    · cases he : endo { ctx with inuse := false }.data x y addv mode <;> simp
    · simp

/-- On a not-in-use context with the merge flag set and an end-phase
present, `VecScatterEnd` returns the context unchanged with success: the
end-phase is not invoked (the result does not depend on it). -/
theorem vecScatterEnd_merged_noop (ops : ScatterOps) (ctx : VecScatter) (x y : Vec)
    (addv : InsertMode) (mode : ScatterMode)
    (endo : ScatPair → Vec → Vec → InsertMode → ScatterMode → Except Nat ScatPair)
    (he : ops.endOp = some endo) (hm : ctx.beginandendtogether = true)
    (hu : ctx.inuse = false) :
    VecScatterEnd ops ctx x y addv mode = (ctx, none) := by
  unfold VecScatterEnd
  rw [he]
  simp only [hm, not_true_eq_false, if_false, reduceIte]
  cases ctx
  simp_all

/-- C2: when `VecScatterBegin` succeeds on a context whose merge flag is
set and whose backend provides an end-phase, the begin call itself has
already invoked the end-phase (the returned payload is the end-phase's
output on the begin-phase's output) and cleared the in-use flag, and a
subsequent `VecScatterEnd` returns the context unchanged without invoking
the end-phase again; when the merge flag is not set, the in-use flag is
still set after `VecScatterBegin` and `VecScatterEnd` clears it. -/
theorem vecScatterBegin_merge_folds_end (ops : ScatterOps) (ctx : VecScatter) (x y : Vec)
    (addv : InsertMode) (mode : ScatterMode)
    (hok : (VecScatterBegin ops ctx x y addv mode).2 = none) :
    (∀ endo, ops.endOp = some endo → ctx.beginandendtogether = true →
        (VecScatterBegin ops ctx x y addv mode).1.inuse = false
        ∧ (∃ d d2, ops.beginOp ctx.data x y addv mode = .ok d
            ∧ endo d x y addv mode = .ok d2
            ∧ (VecScatterBegin ops ctx x y addv mode).1.data = d2)
        ∧ VecScatterEnd ops (VecScatterBegin ops ctx x y addv mode).1 x y addv mode
            = ((VecScatterBegin ops ctx x y addv mode).1, none))
    ∧ (ctx.beginandendtogether = false →
        (VecScatterBegin ops ctx x y addv mode).1.inuse = true
        ∧ (VecScatterEnd ops (VecScatterBegin ops ctx x y addv mode).1 x y addv mode).1.inuse
            = false) := by
  cases hinuse : ctx.inuse with
  | true => simp [VecScatterBegin, hinuse] at hok
  | false =>
    cases hsc : sizeCheckDebug ctx x y mode with
    | some e => simp [VecScatterBegin, hinuse, hsc] at hok
    | none =>
      cases hb : ops.beginOp ctx.data x y addv mode with
      | error code => simp [VecScatterBegin, hinuse, hsc, hb] at hok
      | ok d =>
        constructor
        · intro endo hendo hm
          have hbegin :
              ∃ d2, endo d x y addv mode = .ok d2
                ∧ VecScatterBegin ops ctx x y addv mode
                    = ({ ctx with inuse := false, data := d2 }, none) := by
            cases hee : endo d x y addv mode with
            | error code => simp [VecScatterBegin, hinuse, hsc, hb, hendo, hm, hee] at hok
            | ok d2 =>
              exact ⟨d2, rfl, by simp [VecScatterBegin, hinuse, hsc, hb, hendo, hm, hee]⟩
          obtain ⟨d2, hee, hres⟩ := hbegin
          rw [hres]
          refine ⟨rfl, ⟨d, d2, rfl, hee, rfl⟩, ?_⟩
          exact vecScatterEnd_merged_noop ops _ x y addv mode endo hendo hm rfl
        · intro hm
          have hres : (VecScatterBegin ops ctx x y addv mode).1
              = { ctx with inuse := true, data := d } := by
            cases hendo : ops.endOp with
            | none => simp [VecScatterBegin, hinuse, hsc, hb, hendo]
            | some endo => simp [VecScatterBegin, hinuse, hsc, hb, hendo, hm]
          rw [hres]
          exact ⟨rfl, vecScatterEnd_fst_inuse ops _ x y addv mode⟩

/-- A not-in-use context with merge flag set and unknown declared sizes. -/
def ctxMerged : VecScatter := ⟨false, true, -1, -1, 1, samplePair, none⟩

/-- Witness for C2 at a concrete merged context with both phases
present. -/
theorem vecScatterBegin_merge_folds_end_witness :
    (∀ endo, sampleOps.endOp = some endo → ctxMerged.beginandendtogether = true →
        (VecScatterBegin sampleOps ctxMerged vecA vecB .insertValues .forward).1.inuse = false
        ∧ (∃ d d2, sampleOps.beginOp ctxMerged.data vecA vecB .insertValues .forward = .ok d
            ∧ endo d vecA vecB .insertValues .forward = .ok d2
            ∧ (VecScatterBegin sampleOps ctxMerged vecA vecB .insertValues .forward).1.data = d2)
        ∧ VecScatterEnd sampleOps
              (VecScatterBegin sampleOps ctxMerged vecA vecB .insertValues .forward).1
              vecA vecB .insertValues .forward
            = ((VecScatterBegin sampleOps ctxMerged vecA vecB .insertValues .forward).1, none))
    ∧ (ctxMerged.beginandendtogether = false →
        (VecScatterBegin sampleOps ctxMerged vecA vecB .insertValues .forward).1.inuse = true
        ∧ (VecScatterEnd sampleOps
              (VecScatterBegin sampleOps ctxMerged vecA vecB .insertValues .forward).1
              vecA vecB .insertValues .forward).1.inuse = false) :=
  vecScatterBegin_merge_folds_end sampleOps ctxMerged vecA vecB .insertValues .forward rfl

/-- With either declared size marked unknown, the debug validation is
skipped. -/
theorem sizeCheckDebug_skipped (ctx : VecScatter) (x y : Vec) (mode : ScatterMode)
    (h : ctx.from_n < 0 ∨ ctx.to_n < 0) :
    sizeCheckDebug ctx x y mode = none := by
  unfold sizeCheckDebug
  rw [if_neg]
  rintro ⟨h1, h2⟩
  omega

/-- When the debug validation fails on a not-in-use context,
`VecScatterBegin` returns that error with the context unchanged. -/
theorem vecScatterBegin_of_sizeCheck (ops : ScatterOps) (ctx : VecScatter) (x y : Vec)
    (addv : InsertMode) (mode : ScatterMode) (e : PetscErr)
    (hni : ctx.inuse = false) (h : sizeCheckDebug ctx x y mode = some e) :
    VecScatterBegin ops ctx x y addv mode = (ctx, some e) := by
  simp [VecScatterBegin, hni, h]

/-- Any size-mismatch error returned by `VecScatterBegin` originates in
the debug size validation: no other code path produces one. -/
theorem vecScatterBegin_sizeMismatch_from_check (ops : ScatterOps) (ctx : VecScatter)
    (x y : Vec) (addv : InsertMode) (mode : ScatterMode) (dim : SizeDim) (a b : Int)
    (h : (VecScatterBegin ops ctx x y addv mode).2 = some (.sizeMismatch dim a b)) :
    sizeCheckDebug ctx x y mode = some (.sizeMismatch dim a b) := by
  by_cases hin : ctx.inuse = true
  · simp [VecScatterBegin, hin] at h
  · have hni : ctx.inuse = false := by simpa using hin
    cases hsc : sizeCheckDebug ctx x y mode with
    | some e =>
      rw [vecScatterBegin_of_sizeCheck ops ctx x y addv mode e hni hsc] at h
      simp only [Option.some_inj] at h
      rw [h]
    | none =>
      exfalso
      cases hb : ops.beginOp ctx.data x y addv mode with
      | error code => simp [VecScatterBegin, hni, hsc, hb] at h
      | ok d =>
        cases he : ops.endOp with
        | none => simp [VecScatterBegin, hni, hsc, hb, he] at h
        | some endo =>
          by_cases hm : ctx.beginandendtogether = true
          · cases he2 : endo d x y addv mode with
            | error code => simp [VecScatterBegin, hni, hsc, hb, he, hm, he2] at h
            | ok d2 => simp [VecScatterBegin, hni, hsc, hb, he, hm, he2] at h
          · have hm2 : ctx.beginandendtogether = false := by simpa using hm
            simp [VecScatterBegin, hni, hsc, hb, he, hm2] at h

/-- C3: on a not-in-use context with both declared sizes known, a local
size disagreeing with the declared size for the direction makes
`VecScatterBegin` fail with a size-mismatch error identifying the bad
dimension, the context left unchanged — forward compares `y` against the
declared "to" size and `x` against the declared "from" size, reverse
swaps the roles; with a size marked unknown the check is skipped and no
size-mismatch error is ever produced, whatever the local sizes. -/
theorem vecScatterBegin_size_check (ops : ScatterOps) (ctx : VecScatter) (x y : Vec)
    (addv : InsertMode) (mode : ScatterMode) (hni : ctx.inuse = false) :
    (0 ≤ ctx.from_n → 0 ≤ ctx.to_n →
      (scatterReverse mode = false →
        (y.localSize ≠ ctx.to_n →
          VecScatterBegin ops ctx x y addv mode
            = (ctx, some (.sizeMismatch .toSize y.localSize ctx.to_n)))
        ∧ (y.localSize = ctx.to_n → x.localSize ≠ ctx.from_n →
          VecScatterBegin ops ctx x y addv mode
            = (ctx, some (.sizeMismatch .fromSize x.localSize ctx.from_n))))
      ∧ (scatterReverse mode = true →
        (y.localSize ≠ ctx.from_n →
          VecScatterBegin ops ctx x y addv mode
            = (ctx, some (.sizeMismatch .fromSize y.localSize ctx.from_n)))
        ∧ (y.localSize = ctx.from_n → x.localSize ≠ ctx.to_n →
          VecScatterBegin ops ctx x y addv mode
            = (ctx, some (.sizeMismatch .toSize x.localSize ctx.to_n)))))
    ∧ ((ctx.from_n < 0 ∨ ctx.to_n < 0) →
        ∀ (dim : SizeDim) (a b : Int),
          (VecScatterBegin ops ctx x y addv mode).2 ≠ some (.sizeMismatch dim a b)) := by
  constructor
  · intro hf ht
    constructor
    · intro hrev
      constructor
      · intro hy
        exact vecScatterBegin_of_sizeCheck ops ctx x y addv mode _ hni
          (by simp [sizeCheckDebug, hrev, hy, hf, ht])
      · intro hy hx
        exact vecScatterBegin_of_sizeCheck ops ctx x y addv mode _ hni
          (by simp [sizeCheckDebug, hrev, hy, hx, hf, ht])
    · intro hrev
      constructor
      · intro hy
        exact vecScatterBegin_of_sizeCheck ops ctx x y addv mode _ hni
          (by simp [sizeCheckDebug, hrev, hy, hf, ht])
      · intro hy hx
        exact vecScatterBegin_of_sizeCheck ops ctx x y addv mode _ hni
          (by simp [sizeCheckDebug, hrev, hy, hx, hf, ht])
  · intro hun dim a b hcontra
    have hc := vecScatterBegin_sizeMismatch_from_check ops ctx x y addv mode dim a b hcontra
    rw [sizeCheckDebug_skipped ctx x y mode hun] at hc
    cases hc

/-- Witness for C3: a forward `Begin` with `y` of local size 5 against a
declared "to" size 4 fails identifying the "to" dimension. -/
theorem vecScatterBegin_size_check_witness :
    VecScatterBegin sampleOps ctxSized vecA vecBad .insertValues .forward
      = (ctxSized, some (.sizeMismatch .toSize 5 4)) :=
  (((vecScatterBegin_size_check sampleOps ctxSized vecA vecBad .insertValues
      .forward rfl).1 (by decide) (by decide)).1 rfl).1 (by decide)

/-- The `tomap` phase of the remap never touches the declared vector
lengths: only the backend payload is mutated. -/
theorem remapToMapPhase_preserves_sizes (scat : VecScatter) (tomap : Option (Int → Int)) :
    (remapToMapPhase scat tomap).1.from_n = scat.from_n
    ∧ (remapToMapPhase scat tomap).1.to_n = scat.to_n := by
  unfold remapToMapPhase
  cases tomap with
  | none => simp
  | some tm =>
    simp only
    split
    · simp
    · simp [memcpyPlanCreatePtoP]
    · split
      · split <;> simp
      · simp
    · split
      · split <;> simp
      · simp

/-- The `identityUpTo` loop succeeds exactly when the map fixes every
position below the count. -/
theorem identityUpTo_iff (f : Int → Int) (n : Nat) :
    identityUpTo f n = true ↔ ∀ i : Nat, i < n → f (i : Int) = (i : Int) := by
  simp [identityUpTo, List.all_eq_true, List.mem_range]

/-- C4: when `VecScatterRemap` succeeds, both declared sizes of the
resulting context are the unknown sentinel `-1`, and consequently a
subsequent `VecScatterBegin` on that context can never fail with a
size-mismatch error, whatever the vectors' local sizes (the size check is
skipped). -/
theorem vecScatterRemap_marks_sizes_unknown (scat : VecScatter)
    (tomap frommap : Option (Int → Int))
    (hok : (VecScatterRemap scat tomap frommap).2 = none) :
    (VecScatterRemap scat tomap frommap).1.from_n = -1
    ∧ (VecScatterRemap scat tomap frommap).1.to_n = -1
    ∧ ∀ (ops : ScatterOps) (x y : Vec) (addv : InsertMode) (mode : ScatterMode)
        (dim : SizeDim) (a b : Int),
        (VecScatterBegin ops (VecScatterRemap scat tomap frommap).1 x y addv mode).2
          ≠ some (.sizeMismatch dim a b) := by
  have key : VecScatterRemap scat tomap frommap
      = ({ (remapToMapPhase scat tomap).1 with from_n := -1, to_n := -1 }, none) := by
    unfold VecScatterRemap at hok ⊢
    cases hp : remapToMapPhase scat tomap with
    | mk s e =>
      rw [hp] at hok
      cases e with
      | some err => simp at hok
      | none =>
        by_cases hf : frommap.isSome
        · rw [hf] at hok  -- hmm hf is Prop; see below
          simp at hok
        · simp only [Bool.not_eq_true] at hf
          simp [hf]
  rw [key]
  refine ⟨rfl, rfl, ?_⟩
  intro ops x y addv mode dim a b hcontra
  have hc := vecScatterBegin_sizeMismatch_from_check ops _ x y addv mode dim a b hcontra
  rw [sizeCheckDebug_skipped _ x y mode (Or.inl (by simp))] at hc
  cases hc

/-- Witness for C4: remapping `ctxSized` (declared sizes 3 and 4) with
both maps null succeeds; afterwards the sizes read as unknown and a
`Begin` can no longer raise a size-mismatch error. -/
theorem vecScatterRemap_marks_sizes_unknown_witness :
    (VecScatterRemap ctxSized none none).1.from_n = -1
    ∧ (VecScatterRemap ctxSized none none).1.to_n = -1
    ∧ ∀ (ops : ScatterOps) (x y : Vec) (addv : InsertMode) (mode : ScatterMode)
        (dim : SizeDim) (a b : Int),
        (VecScatterBegin ops (VecScatterRemap ctxSized none none).1 x y addv mode).2
          ≠ some (.sizeMismatch dim a b) :=
  vecScatterRemap_marks_sizes_unknown ctxSized none none rfl

/-- C5: on a context whose remap-sense "to" side (the side holding the
indices data is taken from, stored in `fromdata` for sequential
scatters) is a local stride, `VecScatterRemap` with a non-null `tomap`
succeeds exactly when the stride is the identity pattern (`step = 1`,
`first = 0`) and `tomap` fixes every position below the count; on success
the backend payload is untouched (only the declared sizes are reset to
the unknown sentinel, as every successful remap does), and in every other
case it fails with `PETSC_ERR_ARG_SIZ` leaving the context completely
unchanged. -/
theorem vecScatterRemap_stride_identity (scat : VecScatter) (td : SeqBackend)
    (s : VecScatterSeqStride) (tm : Int → Int)
    (hdata : scat.data = .seqPair td (.stride s)) :
    ((VecScatterRemap scat (some tm) none).2 = none
       ↔ s.step = 1 ∧ s.first = 0 ∧ ∀ i : Nat, i < s.n → tm (i : Int) = (i : Int))
    ∧ ((VecScatterRemap scat (some tm) none).2 = none →
        VecScatterRemap scat (some tm) none
          = ({ scat with from_n := -1, to_n := -1 }, none))
    ∧ ((VecScatterRemap scat (some tm) none).2 ≠ none →
        VecScatterRemap scat (some tm) none = (scat, some .sizeArg)) := by
  have hphase : remapToMapPhase scat (some tm)
      = if s.step = 1 ∧ s.first = 0 then
          (if identityUpTo tm s.n then (scat, none) else (scat, some .sizeArg))
        else (scat, some .sizeArg) := by
    unfold remapToMapPhase
    rw [hdata]
  by_cases hc : s.step = 1 ∧ s.first = 0
  · by_cases hid : identityUpTo tm s.n = true
    · have hr : VecScatterRemap scat (some tm) none
          = ({ scat with from_n := -1, to_n := -1 }, none) := by
        unfold VecScatterRemap
        rw [hphase, if_pos hc, if_pos hid]
        simp
      rw [hr]
      refine ⟨⟨fun _ => ⟨hc.1, hc.2, (identityUpTo_iff tm s.n).1 hid⟩, fun _ => rfl⟩,
        fun _ => rfl, fun hne => absurd rfl hne⟩
    · have hr : VecScatterRemap scat (some tm) none = (scat, some .sizeArg) := by
        unfold VecScatterRemap
        rw [hphase, if_pos hc, if_neg hid]
      rw [hr]
      refine ⟨⟨fun hcon => Option.noConfusion hcon, fun hall => ?_⟩,
        fun hcon => Option.noConfusion hcon, fun _ => rfl⟩
      exact absurd ((identityUpTo_iff tm s.n).2 hall.2.2) hid
  · have hr : VecScatterRemap scat (some tm) none = (scat, some .sizeArg) := by
      unfold VecScatterRemap
      rw [hphase, if_neg hc]
    rw [hr]
    refine ⟨⟨fun hcon => Option.noConfusion hcon, fun hall => ?_⟩,
      fun hcon => Option.noConfusion hcon, fun _ => rfl⟩
    exact absurd ⟨hall.1, hall.2.1⟩ hc

/-- A sequential pair whose remap-sense "to" side is an identity stride
of count 3 (`fromdata` holds the stride). -/
def pairFromStride : ScatPair :=
  .seqPair (.general ⟨3, [0, 1, 2], none⟩) (.stride ⟨3, 0, 1⟩)

/-- A not-in-use context over `pairFromStride` with known declared
sizes. -/
def ctxStride : VecScatter := ⟨false, false, 4, 3, 1, pairFromStride, none⟩

/-- The identity index map. -/
def idMap : Int → Int := fun v => v

/-- An index map shifting every index up by one. -/
def shiftMap : Int → Int := fun v => v + 1

/-- Witness for C5 at a concrete identity-stride context and the identity
map: the remap succeeds and only resets the declared sizes. -/
theorem vecScatterRemap_stride_identity_witness :
    VecScatterRemap ctxStride (some idMap) none
      = ({ ctxStride with from_n := -1, to_n := -1 }, none) := by
  have h := vecScatterRemap_stride_identity ctxStride (.general ⟨3, [0, 1, 2], none⟩)
    ⟨3, 0, 1⟩ idMap rfl
  exact h.2.1 (h.1.mpr ⟨rfl, rfl, fun i _ => rfl⟩)

/-- C6: `VecScatterRemap` never succeeds when a non-null `frommap` is
given; with `tomap` null it fails with `PETSC_ERR_SUP` leaving the context
unchanged, and whenever the `tomap` phase itself raises no error the
failure is `PETSC_ERR_SUP`; the `frommap` value is never applied — the
outcome does not depend on it at all. -/
theorem vecScatterRemap_frommap_rejected (scat : VecScatter)
    (tomap : Option (Int → Int)) (fm : Int → Int) :
    (VecScatterRemap scat tomap (some fm)).2 ≠ none
    ∧ VecScatterRemap scat none (some fm) = (scat, some .notSupported)
    ∧ ((remapToMapPhase scat tomap).2 = none →
        VecScatterRemap scat tomap (some fm)
          = ((remapToMapPhase scat tomap).1, some .notSupported))
    ∧ (∀ fm2 : Int → Int,
        VecScatterRemap scat tomap (some fm) = VecScatterRemap scat tomap (some fm2)) := by
  refine ⟨?_, ?_, ?_, ?_⟩
  · unfold VecScatterRemap
    cases hp : remapToMapPhase scat tomap with
    | mk s e => cases e <;> simp
  · unfold VecScatterRemap
    unfold remapToMapPhase
    simp
  · intro hph
    unfold VecScatterRemap
    cases hp : remapToMapPhase scat tomap with
    | mk s e =>
      rw [hp] at hph
      simp only at hph
      rw [hph]
      simp
  · intro fm2
    unfold VecScatterRemap
    cases hp : remapToMapPhase scat tomap with
    | mk s e => cases e <;> simp

/-- Witness for C6 with a null `tomap` and a concrete non-null
`frommap`. -/
theorem vecScatterRemap_frommap_rejected_witness :
    (VecScatterRemap ctxSized none (some idMap)).2 ≠ none
    ∧ VecScatterRemap ctxSized none (some idMap) = (ctxSized, some .notSupported)
    ∧ ((remapToMapPhase ctxSized none).2 = none →
        VecScatterRemap ctxSized none (some idMap)
          = ((remapToMapPhase ctxSized none).1, some .notSupported))
    ∧ (∀ fm2 : Int → Int,
        VecScatterRemap ctxSized none (some idMap)
          = VecScatterRemap ctxSized none (some fm2)) :=
  vecScatterRemap_frommap_rejected ctxSized none idMap

/-- C10: `VecScatterRemap` is not atomic on the `frommap` rejection: when
the `tomap` phase succeeds and a non-null `frommap` is also given, the
call fails with `PETSC_ERR_SUP` but returns the context already mutated by
the `tomap` phase; the declared sizes are never changed by a failing call
(only a fully successful remap resets them); and on a
distributed-general pair the `tomap` phase has rewritten the to-side
message-block indices and local slots through `tomap` and rebuilt the
memcpy plans of both sides. -/
theorem vecScatterRemap_not_atomic (scat : VecScatter) (tm fm : Int → Int) :
    ((remapToMapPhase scat (some tm)).2 = none →
        VecScatterRemap scat (some tm) (some fm)
          = ((remapToMapPhase scat (some tm)).1, some .notSupported))
    ∧ ((VecScatterRemap scat (some tm) (some fm)).1.from_n = scat.from_n
        ∧ (VecScatterRemap scat (some tm) (some fm)).1.to_n = scat.to_n)
    ∧ (∀ t f, scat.data = .mpiGeneral t f →
        (remapToMapPhase scat (some tm)).1.data
          = .mpiGeneral
              { t with
                indices := mapFirst tm ((t.starts.getD t.n 0).toNat) t.indices,
                localVslots := mapFirst tm t.localN t.localVslots,
                memcpyPlan := some (mapFirst tm ((t.starts.getD t.n 0).toNat) t.indices) }
              { f with memcpyPlan := some f.indices }) := by
  refine ⟨?_, ?_, ?_⟩
  · intro hph
    unfold VecScatterRemap
    cases hp : remapToMapPhase scat (some tm) with
    | mk s e =>
      rw [hp] at hph
      simp only at hph
      rw [hph]
      simp
  · have hpres := remapToMapPhase_preserves_sizes scat (some tm)
    unfold VecScatterRemap
    cases hp : remapToMapPhase scat (some tm) with
    | mk s e =>
      rw [hp] at hpres
      cases e with
      | none => simpa using hpres
      | some err => simpa using hpres
  · intro t f hd
    unfold remapToMapPhase
    rw [hd]
    simp [memcpyPlanCreatePtoP]

/-- A distributed-general pair: two send peers with message blocks
delimited by `starts = [0,2,5]`, flat indices `[3,1,4,1,5]`, one local
slot `7`, block size 1 on both sides. -/
def mpiTo : VecScatterMPIGeneral := ⟨2, [0, 2, 5], [3, 1, 4, 1, 5], 1, [7], 1, none⟩

/-- The matching receive side: one peer owning one message index. -/
def mpiFrom : VecScatterMPIGeneral := ⟨1, [0, 1], [0], 0, [], 1, none⟩

/-- A not-in-use distributed-general context with known declared sizes
and no device mirror. -/
def ctxMPI : VecScatter := ⟨false, false, 9, 9, 1, .mpiGeneral mpiTo mpiFrom, none⟩

/-- Witness for C10 at the concrete distributed-general context with a
shifting `tomap` and a non-null `frommap`. -/
theorem vecScatterRemap_not_atomic_witness :
    ((remapToMapPhase ctxMPI (some shiftMap)).2 = none →
        VecScatterRemap ctxMPI (some shiftMap) (some idMap)
          = ((remapToMapPhase ctxMPI (some shiftMap)).1, some .notSupported))
    ∧ ((VecScatterRemap ctxMPI (some shiftMap) (some idMap)).1.from_n = ctxMPI.from_n
        ∧ (VecScatterRemap ctxMPI (some shiftMap) (some idMap)).1.to_n = ctxMPI.to_n)
    ∧ (∀ t f, ctxMPI.data = .mpiGeneral t f →
        (remapToMapPhase ctxMPI (some shiftMap)).1.data
          = .mpiGeneral
              { t with
                indices := mapFirst shiftMap ((t.starts.getD t.n 0).toNat) t.indices,
                localVslots := mapFirst shiftMap t.localN t.localVslots,
                memcpyPlan := some (mapFirst shiftMap ((t.starts.getD t.n 0).toNat) t.indices) }
              { f with memcpyPlan := some f.indices }) :=
  vecScatterRemap_not_atomic ctxMPI shiftMap idMap

/-- Membership in `insSortedNoDup` is membership in the list or equality
with the inserted value. -/
theorem mem_insSortedNoDup (a x : Int) (l : List Int) :
    a ∈ insSortedNoDup x l ↔ a = x ∨ a ∈ l := by
  induction l with
  | nil => simp [insSortedNoDup]
  | cons y ys ih =>
    unfold insSortedNoDup
    by_cases h1 : x < y
    · simp [h1]
    · by_cases h2 : x = y
      · subst h2
        simp only [h1, if_false, reduceIte, List.mem_cons]
        tauto
      · simp only [h1, h2, if_false, reduceIte, List.mem_cons, ih]
        tauto

/-- `sortRemoveDups` preserves membership: it only reorders and removes
duplicates. -/
theorem mem_sortRemoveDups (a : Int) (l : List Int) :
    a ∈ sortRemoveDups l ↔ a ∈ l := by
  induction l with
  | nil => simp [sortRemoveDups]
  | cons x xs ih =>
    simp only [sortRemoveDups, List.foldr_cons] at ih ⊢
    rw [mem_insSortedNoDup]
    simp [ih]

/-- Membership in a block expansion: exactly the values `v + k` for a
list element `v` and a component offset `k` below the block size. -/
theorem mem_blockExpand (bs : Nat) (l : List Int) (j : Int) :
    j ∈ blockExpand bs l ↔ ∃ v ∈ l, ∃ k : Nat, k < bs ∧ j = v + (k : Int) := by
  unfold blockExpand
  rw [List.mem_flatMap]
  constructor
  · rintro ⟨v, hv, hj⟩
    rw [List.mem_map] at hj
    obtain ⟨k, hk, hjk⟩ := hj
    rw [List.mem_range] at hk
    exact ⟨v, hv, k, hk, hjk.symm⟩
  · rintro ⟨v, hv, k, hk, rfl⟩
    refine ⟨v, hv, ?_⟩
    rw [List.mem_map]
    exact ⟨k, by rw [List.mem_range]; exact hk, rfl⟩

/-- A vector with a device-resident mirror. -/
def gpuVec : Vec := ⟨5, .gpu⟩

/-- Claimed send buffer, written out from the spec's words for the
refinement check of C8 (spec §8): "the deduplicated, block-expanded union
of indices from both peers' ranges plus the local-slot range". -/
def specClaimedSendBuffer (todata : VecScatterMPIGeneral) : List Int :=
  blockExpand todata.bs
    (sortRemoveDups
      (todata.indices.take (todata.starts.getD todata.n 0).toNat
        ++ todata.localVslots.take todata.localN))

/-- Counterexample to C8 as stated: on the two-peer context with
`starts = [0,2,5]` and local slot 7, the buffer actually produced by
`VecScatterInitializeForGPU` is `[1,3,4,5]` — the deduplicated,
block-expanded message-block indices only — whereas the claimed buffer
also contains the local slot 7, which the produced buffer lacks. -/
theorem vecScatterInitializeForGPU_local_slots_cex :
    (VecScatterInitializeForGPU ctxMPI gpuVec .forward).1.spptr
        = some ⟨[1, 3, 4, 5], [0]⟩
    ∧ specClaimedSendBuffer mpiTo = [1, 3, 4, 5, 7]
    ∧ (7 : Int) ∈ specClaimedSendBuffer mpiTo
    ∧ (7 : Int) ∉ ([1, 3, 4, 5] : List Int) := by
  decide

/-- C8 (amended): on a distributed-general context with no cached device
handle, a device-allocated source vector and at least one send or receive
peer, the first forward `VecScatterInitializeForGPU` caches a send buffer
that is exactly the sorted, deduplicated, block-expanded to-side
message-block index set — an element belongs to it exactly when it equals
`v + k` for a message-block index `v` and a component offset `k < bs` —
and a receive buffer built the same way from the from side; the to-side
local slots are not included. -/
theorem vecScatterInitializeForGPU_send_buffer (inctx : VecScatter) (x : Vec)
    (t f : VecScatterMPIGeneral)
    (hd : inctx.data = .mpiGeneral t f) (hs : inctx.spptr = none)
    (hg : x.validGPUArray ≠ .unallocated) (hn : 0 < t.n ∨ 0 < f.n) :
    ∃ sendBuf recvBuf,
      (VecScatterInitializeForGPU inctx x .forward).1.spptr = some ⟨sendBuf, recvBuf⟩
      ∧ sendBuf
          = blockExpand t.bs (sortRemoveDups (t.indices.take (t.starts.getD t.n 0).toNat))
      ∧ (∀ j : Int, j ∈ sendBuf ↔
          ∃ v ∈ t.indices.take (t.starts.getD t.n 0).toNat,
            ∃ k : Nat, k < t.bs ∧ j = v + (k : Int))
      ∧ recvBuf
          = blockExpand f.bs (sortRemoveDups (f.indices.take (f.starts.getD f.n 0).toNat)) := by
  have hres : VecScatterInitializeForGPU inctx x .forward
      = ({ inctx with spptr := some (PetscCUDAIndices.mk
            (blockExpand t.bs (sortRemoveDups (t.indices.take (t.starts.getD t.n 0).toNat)))
            (blockExpand f.bs (sortRemoveDups (f.indices.take (f.starts.getD f.n 0).toNat)))) },
          none) := by
    unfold VecScatterInitializeForGPU
    rw [hd]
    simp only [scatterReverse, Bool.false_eq_true, if_false, reduceIte]
    rw [if_pos ⟨hg, hn⟩, hs]
  refine ⟨_, _, ?_, rfl, ?_, rfl⟩
  · rw [hres]
  · intro j
    rw [mem_blockExpand]
    constructor
    · rintro ⟨v, hv, k, hk, rfl⟩
      exact ⟨v, (mem_sortRemoveDups v _).1 hv, k, hk, rfl⟩
    · rintro ⟨v, hv, k, hk, rfl⟩
      exact ⟨v, (mem_sortRemoveDups v _).2 hv, k, hk, rfl⟩

/-- Witness for the amended C8 at the concrete two-peer context. -/
theorem vecScatterInitializeForGPU_send_buffer_witness :
    ∃ sendBuf recvBuf,
      (VecScatterInitializeForGPU ctxMPI gpuVec .forward).1.spptr = some ⟨sendBuf, recvBuf⟩
      ∧ sendBuf
          = blockExpand mpiTo.bs
              (sortRemoveDups (mpiTo.indices.take (mpiTo.starts.getD mpiTo.n 0).toNat))
      ∧ (∀ j : Int, j ∈ sendBuf ↔
          ∃ v ∈ mpiTo.indices.take (mpiTo.starts.getD mpiTo.n 0).toNat,
            ∃ k : Nat, k < mpiTo.bs ∧ j = v + (k : Int))
      ∧ recvBuf
          = blockExpand mpiFrom.bs
              (sortRemoveDups (mpiFrom.indices.take (mpiFrom.starts.getD mpiFrom.n 0).toNat)) :=
  vecScatterInitializeForGPU_send_buffer ctxMPI gpuVec mpiTo mpiFrom rfl rfl
    (by decide) (by decide)
